import Mathlib

/-!
Verification of the client-side interactivity scripts of the SCR repository
(src/js/script.js and src/Mdule-1/js/script.js) against their natural-language
specification.  The JavaScript is shallowly embedded: each DOM-event handler
becomes a pure Lean function over an explicit state record, and the top-level
script evaluation (which can throw on a missing element) becomes a function
returning the list of registered features together with an optional error.
-/

namespace SCR

/-- Character class of the JavaScript regular-expression escape backslash-s
(ECMAScript WhiteSpace and LineTerminator code points). -/
def jsWhitespace (c : Char) : Bool :=
  let n := c.toNat
  n == 0x20 || n == 0x09 || n == 0x0A || n == 0x0D || n == 0x0B || n == 0x0C ||
  n == 0xA0 || n == 0x1680 || (0x2000 ≤ n && n ≤ 0x200A) ||
  n == 0x2028 || n == 0x2029 || n == 0x202F || n == 0x205F || n == 0x3000 || n == 0xFEFF

/-- JavaScript String.prototype.trim over the character list of a string:
strips jsWhitespace characters from both ends. -/
def jsTrimList (s : String) : List Char :=
  ((s.toList.dropWhile jsWhitespace).reverse.dropWhile jsWhitespace).reverse

/-! ## Active navigation highlighting (script.js lines 163-185) -/

/-- A section element with an id, as read by `document.querySelectorAll`:
only its offsetTop, offsetHeight and id attribute are consulted. -/
structure PageSection where
  id : String
  offsetTop : Int
  offsetHeight : Int
  deriving DecidableEq, Repr

/-- A nav anchor whose href starts with a hash; `background` is its inline
background style (empty string when unset). -/
structure NavLink where
  href : String
  background : String
  deriving DecidableEq, Repr

/-- The guard `scrollY > sectionTop && scrollY <= sectionTop + sectionHeight`
with `sectionTop = section.offsetTop - 100` (script.js line 174). -/
def sectionMatches (scrollY : Int) (s : PageSection) : Bool :=
  decide (s.offsetTop - 100 < scrollY) && decide (scrollY ≤ s.offsetTop - 100 + s.offsetHeight)

/-- Body of the inner `navLinks.forEach` (script.js lines 175-180): the
background is first cleared, then set to the teal marker exactly when the
href names the section id. -/
def markLink (s : PageSection) (l : NavLink) : NavLink :=
  if l.href = "#" ++ s.id then { l with background := "var(--teal)" }
  else { l with background := "" }

/-- Body of the outer `sections.forEach` (script.js lines 169-182): the nav
links are rewritten only when the section matches the scroll offset. -/
def applySection (scrollY : Int) (links : List NavLink) (s : PageSection) : List NavLink :=
  if sectionMatches scrollY s then links.map (markLink s) else links

/-- `highlightActiveSection` (script.js lines 166-183): fold of the section
pass over the current nav links, in document order. -/
def highlightActiveSection (scrollY : Int) (secs : List PageSection)
    (links : List NavLink) : List NavLink :=
  secs.foldl (applySection scrollY) links

/-- Spec-side description of the routine used for the amended claim C1: the
last section (in document order) whose span contains the offset determines
the marking; with no matching section the links are left untouched. -/
def specHighlight (scrollY : Int) (secs : List PageSection)
    (links : List NavLink) : List NavLink :=
  match (secs.filter (sectionMatches scrollY)).getLast? with
  | none => links
  | some s => links.map (markLink s)

/-- The claim C1 reads the span as the closed interval
[offsetTop - 100, offsetTop - 100 + height]. -/
def claimSpanContains (scrollY : Int) (s : PageSection) : Bool :=
  decide (s.offsetTop - 100 ≤ scrollY) && decide (scrollY ≤ s.offsetTop - 100 + s.offsetHeight)

/-- Whether a nav link currently carries the visual marker. -/
def isMarked (l : NavLink) : Bool := l.background == "var(--teal)"

/-! ## Top-level script evaluation and missing elements (script.js) -/

/-- Which of the elements consulted during the top-level evaluation of
src/js/script.js are present in the document at load. -/
structure DomEnv where
  cursorEl : Bool
  scrollToTopEl : Bool
  lightboxEl : Bool
  lightboxCloseEl : Bool
  contactFormEl : Bool
  nameEl : Bool
  emailEl : Bool
  messageEl : Bool
  themeToggleEl : Bool
  deriving DecidableEq, Repr

/-- The behavioral features whose handlers src/js/script.js registers while
it evaluates, in source order. -/
inductive Feature where
  | cursorF
  | navGlassF
  | scrollTopF
  | highlightF
  | smoothScrollF
  | revealF
  | lightboxF
  | formF
  | lazyLoadF
  | keyboardNavF
  | debouncedHighlightF
  | themeToggleF
  | domLoadInitF
  | downloadF
  deriving DecidableEq, Repr

/-- Top-level evaluation of src/js/script.js over a document environment.
Returns the features whose handlers were registered before evaluation
finished, together with the error that aborted it, if any.  Mirrors the
source order: `initCursor` checks its element and warns (lines 16-19);
the nav-glassmorphism handler guards inside the handler (line 120); the
scroll-to-top click registration dereferences its element unguarded
(line 151), as do the lightbox close and overlay registrations (lines
255-256), the three blur registrations (lines 278-280) and the submit
registration (line 334); the theme-toggle registration is guarded
(line 534). -/
def scriptEval (env : DomEnv) : List Feature × Option String :=
  let fs := (if env.cursorEl then [Feature.cursorF] else []) ++ [Feature.navGlassF]
  if !env.scrollToTopEl then (fs, some "TypeError at scrollToTopBtn.addEventListener") else
  let fs := fs ++ [Feature.scrollTopF, Feature.highlightF, Feature.smoothScrollF, Feature.revealF]
  if !env.lightboxCloseEl then (fs, some "TypeError at lightboxClose.addEventListener") else
  if !env.lightboxEl then (fs, some "TypeError at lightbox.addEventListener") else
  let fs := fs ++ [Feature.lightboxF]
  if !env.nameEl then (fs, some "TypeError at nameInput.addEventListener") else
  if !env.emailEl then (fs, some "TypeError at emailInput.addEventListener") else
  if !env.messageEl then (fs, some "TypeError at messageInput.addEventListener") else
  if !env.contactFormEl then (fs, some "TypeError at contactForm.addEventListener") else
  let fs := fs ++ [Feature.formF, Feature.lazyLoadF, Feature.keyboardNavF,
    Feature.debouncedHighlightF]
  let fs := fs ++ (if env.themeToggleEl then [Feature.themeToggleF] else [])
  (fs ++ [Feature.domLoadInitF], none)

/-- Environment with every consulted element present. -/
def fullEnv : DomEnv :=
  { cursorEl := true, scrollToTopEl := true, lightboxEl := true, lightboxCloseEl := true,
    contactFormEl := true, nameEl := true, emailEl := true, messageEl := true,
    themeToggleEl := true }

/-- The feature list registered by a full run. -/
def allFeatures : List Feature :=
  [Feature.cursorF, Feature.navGlassF, Feature.scrollTopF, Feature.highlightF,
   Feature.smoothScrollF, Feature.revealF, Feature.lightboxF, Feature.formF,
   Feature.lazyLoadF, Feature.keyboardNavF, Feature.debouncedHighlightF,
   Feature.themeToggleF, Feature.domLoadInitF]

/-- The download-trigger registration of src/Mdule-1/js/script.js (lines
1096-1104): the handler is attached only when the button exists, so a
missing button registers nothing and throws nothing. -/
def downloadSetup (buttonPresent : Bool) : List Feature :=
  if buttonPresent then [Feature.downloadF] else []

/-! ## Form validation and submission (script.js lines 272-396) -/

/-- A form input element together with the state of its parent container:
the inline error-message elements attached there and the border color set
on the input. -/
structure FormField where
  value : String
  errors : List String
  borderColor : String
  deriving DecidableEq, Repr

/-- `clearError` (script.js lines 325-331): removes the first error-message
element of the parent, if any, and resets the border color. -/
def clearError (input : FormField) : FormField :=
  { input with errors := input.errors.tail, borderColor := "" }

/-- `showError` (script.js lines 313-323): first clears, then appends one
error-message element and sets the error border color. -/
def showError (input : FormField) (message : String) : FormField :=
  let cleared := clearError input
  { cleared with errors := cleared.errors ++ [message], borderColor := "#d32f2f" }

/-- Character class `[^\s@]` of the email regular expression. -/
def isEmailChar (c : Char) : Bool := !jsWhitespace c && !(c == '@')

/-- The test of the regular expression `^[^\s@]+@[^\s@]+\.[^\s@]+$` from
`validateEmail` (script.js line 294), as its decomposition semantics: the
string matches when it splits as A at-sign B dot C with A, B, C non-empty
runs of characters that are neither whitespace nor at-signs.  Index i is
the position of the at-sign, index j the position of the dot. -/
def emailRegexTest (l : List Char) : Bool :=
  (List.range l.length).any fun i =>
    (List.range l.length).any fun j =>
      decide (0 < i) && decide (l[i]? = some '@') &&
      decide (i + 1 < j) && decide (l[j]? = some '.') &&
      decide (j + 1 < l.length) &&
      (l.take i).all isEmailChar &&
      ((l.drop (i + 1)).take (j - (i + 1))).all isEmailChar &&
      (l.drop (j + 1)).all isEmailChar

/-- `validateName` (script.js lines 282-290). -/
def validateName (input : FormField) : FormField × Bool :=
  if (jsTrimList input.value).length < 2 then
    (showError input "Name must be at least 2 characters long", false)
  else (clearError input, true)

/-- `validateEmail` (script.js lines 292-301). -/
def validateEmail (input : FormField) : FormField × Bool :=
  if !emailRegexTest (jsTrimList input.value) then
    (showError input "Please enter a valid email address", false)
  else (clearError input, true)

/-- `validateMessage` (script.js lines 303-311). -/
def validateMessage (input : FormField) : FormField × Bool :=
  if (jsTrimList input.value).length < 10 then
    (showError input "Message must be at least 10 characters long", false)
  else (clearError input, true)

/-- A form-message banner appended to the form by `showFormMessage`. -/
structure FormBanner where
  background : String
  text : String
  deriving DecidableEq, Repr

/-- The contact form: three fields, the submit button label and disabled
flag, and the banners currently attached to the form. -/
structure ContactForm where
  nameField : FormField
  emailField : FormField
  messageField : FormField
  submitText : String
  submitDisabled : Bool
  banners : List FormBanner
  deriving DecidableEq, Repr

/-- `showFormMessage` (script.js lines 367-396): removes the first existing
banner, if any, then appends the new one with the color chosen by type. -/
def showFormMessage (msgType : String) (message : String) (form : ContactForm) : ContactForm :=
  let bg := if msgType == "success" then "#4caf50" else "#f44336"
  { form with banners := form.banners.tail ++ [FormBanner.mk bg message] }

/-- The synchronous part of the submit handler (script.js lines 334-351),
up to the simulated-network await: validates the three fields, and either
returns early (second component false, no delay started) or enters the
loading state (second component true).  -/
def submitPhase1 (form : ContactForm) : ContactForm × Bool :=
  let vn := validateName form.nameField
  let ve := validateEmail form.emailField
  let vm := validateMessage form.messageField
  let form2 := { form with nameField := vn.1, emailField := ve.1, messageField := vm.1 }
  if !vn.2 || !ve.2 || !vm.2 then (form2, false)
  else ({ form2 with submitText := "Sending...", submitDisabled := true }, true)

/-- `contactForm.reset()`: restores the three controls to their default
(empty) values; appended banners and borders are not form controls. -/
def formReset (form : ContactForm) : ContactForm :=
  { form with nameField := { form.nameField with value := "" },
              emailField := { form.emailField with value := "" },
              messageField := { form.messageField with value := "" } }

/-- Continuation of the submit handler after the 1500 ms simulated delay
resolves (script.js lines 354-364): success banner, form reset, then the
finally block restores the submit button. -/
def submitDelayComplete (originalText : String) (form : ContactForm) : ContactForm :=
  let form2 := showFormMessage "success"
    "Thank you for your message! We will get back to you soon." form
  let form3 := formReset form2
  { form3 with submitText := originalText, submitDisabled := false }

/-- One validation outcome delivered to a field (claim C8): a failure with
its message runs `showError`, a success runs `clearError`. -/
inductive FieldOp where
  | fail (message : String)
  | pass
  deriving DecidableEq, Repr

/-- Apply one validation outcome to a field. -/
def applyFieldOp (input : FormField) (op : FieldOp) : FormField :=
  match op with
  | .fail m => showError input m
  | .pass => clearError input

/-- Apply a sequence of validation outcomes to a field. -/
def applyFieldOps (input : FormField) (ops : List FieldOp) : FormField :=
  ops.foldl applyFieldOp input

/-- Spec-side reading of claim C5: some dot of the list has non-empty
segments on both sides. -/
def hasInteriorDot (a : List Char) : Bool :=
  (List.range a.length).any fun k =>
    decide (0 < k) && decide (a[k]? = some '.') && decide (k + 1 < a.length)

/-- Spec-side reading of claim C5 for the whole (already trimmed) string:
no whitespace, exactly one at-sign, a non-empty part before it, and an
interior dot in the part after it. -/
def specEmailAccept (l : List Char) : Bool :=
  l.all (fun c => !jsWhitespace c) &&
  decide (l.count '@' = 1) &&
  !(l.takeWhile (fun c => !(c == '@'))).isEmpty &&
  hasInteriorDot ((l.dropWhile (fun c => !(c == '@'))).tail)

/-- Concrete contact form for the C3 witness: one-character name. -/
def cForm3 : ContactForm :=
  ContactForm.mk (FormField.mk "A" [] "") (FormField.mk "" [] "")
    (FormField.mk "" [] "") "Send Message" false []

/-- Concrete contact form for the C4 witness: all three fields valid. -/
def cForm4 : ContactForm :=
  ContactForm.mk (FormField.mk "Ann" [] "") (FormField.mk "a@b.co" [] "")
    (FormField.mk "1234567890" [] "") "Send Message" false []

/-! ## Theme toggle (script.js lines 501-540) -/

/-- Theme-relevant state: the data-theme attribute on the document element,
the localStorage entry under key theme, and the toggle-icon text (none
models an absent attribute or entry). -/
structure ThemeState where
  dataTheme : Option String
  storedTheme : Option String
  iconText : Option String
  deriving DecidableEq, Repr

/-- `getTheme` (script.js lines 505-507): `localStorage.getItem` or the
default; an empty stored string is falsy in JavaScript and also defaults. -/
def getTheme (st : ThemeState) : String :=
  match st.storedTheme with
  | none => "light"
  | some t => if t = "" then "light" else t

/-- `setTheme` (script.js lines 510-518): writes the attribute and the
storage entry, and updates the icon glyph when the icon element exists. -/
def setTheme (hasIcon : Bool) (theme : String) (st : ThemeState) : ThemeState :=
  { dataTheme := some theme, storedTheme := some theme,
    iconText := if hasIcon then some (if theme = "dark" then "☀️" else "🌙")
                else st.iconText }

/-- `toggleTheme` (script.js lines 521-525). -/
def toggleTheme (hasIcon : Bool) (st : ThemeState) : ThemeState :=
  setTheme hasIcon (if getTheme st = "dark" then "light" else "dark") st

/-- `initTheme` (script.js lines 528-531). -/
def initTheme (hasIcon : Bool) (st : ThemeState) : ThemeState :=
  setTheme hasIcon (getTheme st) st

/-- The theme operations the script can perform (claim C9). -/
inductive ThemeOp where
  | initOp
  | setOp (theme : String)
  | toggleOp
  deriving DecidableEq, Repr

/-- Apply one theme operation. -/
def applyThemeOp (hasIcon : Bool) (op : ThemeOp) (st : ThemeState) : ThemeState :=
  match op with
  | .initOp => initTheme hasIcon st
  | .setOp t => setTheme hasIcon t st
  | .toggleOp => toggleTheme hasIcon st

/-! ## Mobile menu toggle (Mdule-1/js/script.js lines 183-201) -/

/-- Mobile-menu state: the active class on the nav menu and on the
hamburger, the aria-expanded attribute on the hamburger, and the body
overflow style. -/
structure MenuState where
  navMenuActive : Bool
  hamburgerActive : Bool
  ariaExpanded : String
  bodyOverflow : String
  deriving DecidableEq, Repr

/-- `toggleMobileMenu` (Mdule-1/js/script.js lines 183-201): a no-op when
either element is missing; otherwise branches on the menu active class. -/
def toggleMobileMenu (bothPresent : Bool) (st : MenuState) : MenuState :=
  if !bothPresent then st
  else if st.navMenuActive then MenuState.mk false false "false" ""
  else MenuState.mk true true "true" "hidden"

/-- A menu state is consistent when the hamburger class, the aria attribute
and the body overflow all reflect the menu open class: exactly the states
the menu code itself produces (and the load-time reset). -/
def menuConsistent (st : MenuState) : Prop :=
  st.hamburgerActive = st.navMenuActive ∧
  st.ariaExpanded = (if st.navMenuActive then "true" else "false") ∧
  st.bodyOverflow = (if st.navMenuActive then "hidden" else "")

/-! ## Lazy image loading (script.js lines 434-449) -/

/-- An image element as seen by the lazy-load observer: its src attribute
and its optional data-src attribute. -/
structure LazyImg where
  src : String
  dataSrc : Option String
  deriving DecidableEq, Repr

/-- The registration pass (script.js lines 447-449): only images matching
the selector img with a data-src attribute are observed. -/
def lazyObserveTargets (imgs : List LazyImg) : List LazyImg :=
  imgs.filter (fun img => img.dataSrc.isSome)

/-- The observer callback on one entry (script.js lines 434-445): on
intersection, when dataset.src is truthy (present and non-empty) the real
source is swapped in and the attribute removed; otherwise nothing changes. -/
def imageObserverStep (isIntersecting : Bool) (img : LazyImg) : LazyImg :=
  if isIntersecting then
    match img.dataSrc with
    | some s => if s ≠ "" then LazyImg.mk s none else img
    | none => img
  else img

theorem markLink_href (s : PageSection) (l : NavLink) : (markLink s l).href = l.href := by
  unfold markLink
  split <;> rfl

theorem markLink_eq_of_href (t : PageSection) (a b : NavLink) (h : a.href = b.href) :
    markLink t a = markLink t b := by
  rcases a with ⟨ah, ab⟩
  rcases b with ⟨bh, bb⟩
  simp only at h
  subst h
  by_cases h2 : ah = "#" ++ t.id <;> simp [markLink, h2]

theorem markLink_markLink (s t : PageSection) (l : NavLink) :
    markLink t (markLink s l) = markLink t l :=
  markLink_eq_of_href t _ _ (markLink_href s l)

/-- C1 (amended): after `highlightActiveSection` runs at scroll offset Y, the
nav links equal the spec-side description: if some section span
(offsetTop - 100, offsetTop - 100 + height] contains Y then every link is
rewritten, the marked one being exactly the link whose href names the last
matching section in document order; if no span contains Y the links are left
exactly as they were before the run. -/
theorem theorem_C1 (scrollY : Int) (secs : List PageSection) (links : List NavLink) :
    highlightActiveSection scrollY secs links = specHighlight scrollY secs links := by
  induction secs generalizing links with
  | nil => rfl
  | cons s rest ih =>
    cases hm : sectionMatches scrollY s with
    | false =>
      have hstep : highlightActiveSection scrollY (s :: rest) links
          = highlightActiveSection scrollY rest links := by
        simp [highlightActiveSection, applySection, hm]
      rw [hstep, ih]
      unfold specHighlight
      rw [List.filter_cons_of_neg (by simp [hm])]
    | true =>
      have hstep : highlightActiveSection scrollY (s :: rest) links
          = highlightActiveSection scrollY rest (links.map (markLink s)) := by
        simp [highlightActiveSection, applySection, hm]
      rw [hstep, ih]
      unfold specHighlight
      rw [List.filter_cons_of_pos (by simp [hm])]
      cases hfr : rest.filter (sectionMatches scrollY) with
      | nil => simp
      | cons t ts =>
        rw [List.getLast?_cons_cons]
        cases hu : (t :: ts).getLast? with
        | none => simp at hu
        | some u =>
          simp only [List.map_map]
          exact List.map_congr_left (fun l _ => markLink_markLink s u l)

/-- C1 counterexample to the claim as stated, at concrete inputs.  First
input: scroll offset 0, one section with span [100, 200] in the claim
reading, one nav link already marked; no span contains 0, yet after the
routine runs the link is still marked, contradicting the claim that no link
is then marked.  Second input: scroll offset exactly offsetTop - 100 = 100;
the claim closed span contains 100, yet the routine (whose lower bound is
strict) marks nothing. -/
theorem counterexample_C1 :
    (∀ s ∈ [PageSection.mk "a" 200 100], claimSpanContains 0 s = false) ∧
    highlightActiveSection 0 [PageSection.mk "a" 200 100]
      [NavLink.mk "#a" "var(--teal)"] = [NavLink.mk "#a" "var(--teal)"] ∧
    isMarked (NavLink.mk "#a" "var(--teal)") = true ∧
    claimSpanContains 100 (PageSection.mk "a" 200 100) = true ∧
    highlightActiveSection 100 [PageSection.mk "a" 200 100]
      [NavLink.mk "#a" ""] = [NavLink.mk "#a" ""] ∧
    isMarked (NavLink.mk "#a" "") = false := by
  refine ⟨?_, ?_, ?_, ?_, ?_, ?_⟩ <;> decide

/-- C2 counterexample to the claim as stated, at a concrete input: with only
the scroll-to-top control absent, evaluation of the script aborts with a
TypeError right after the cursor and nav-glassmorphism registrations, so the
lightbox, form, lazy-load, keyboard-nav and theme features are never
registered, although a full environment registers all of them; the claim
that every other feature is unchanged fails. -/
theorem counterexample_C2 :
    scriptEval { fullEnv with scrollToTopEl := false }
      = ([Feature.cursorF, Feature.navGlassF],
         some "TypeError at scrollToTopBtn.addEventListener") ∧
    scriptEval fullEnv = (allFeatures, none) ∧
    Feature.themeToggleF ∈ (scriptEval fullEnv).1 ∧
    Feature.themeToggleF ∉ (scriptEval { fullEnv with scrollToTopEl := false }).1 ∧
    scriptEval { fullEnv with scrollToTopEl := false }
      ≠ (allFeatures.erase Feature.scrollTopF, none) := by
  refine ⟨?_, ?_, ?_, ?_, ?_⟩ <;> decide

/-- C2 (amended): a missing cursor root or theme toggle degrades only that
one feature (the other registrations are unchanged), and a missing download
trigger (other variant) merely skips its registration; but a missing
scroll-to-top control, lightbox overlay, lightbox close control, contact
form, or any of its three inputs makes top-level evaluation throw at that
point, so every feature initialized later in the file is lost as well. -/
theorem theorem_C2 :
    scriptEval fullEnv = (allFeatures, none) ∧
    scriptEval { fullEnv with cursorEl := false }
      = (allFeatures.erase Feature.cursorF, none) ∧
    scriptEval { fullEnv with themeToggleEl := false }
      = (allFeatures.erase Feature.themeToggleF, none) ∧
    scriptEval { fullEnv with scrollToTopEl := false }
      = ([Feature.cursorF, Feature.navGlassF],
         some "TypeError at scrollToTopBtn.addEventListener") ∧
    scriptEval { fullEnv with lightboxCloseEl := false }
      = ([Feature.cursorF, Feature.navGlassF, Feature.scrollTopF, Feature.highlightF,
          Feature.smoothScrollF, Feature.revealF],
         some "TypeError at lightboxClose.addEventListener") ∧
    scriptEval { fullEnv with lightboxEl := false }
      = ([Feature.cursorF, Feature.navGlassF, Feature.scrollTopF, Feature.highlightF,
          Feature.smoothScrollF, Feature.revealF],
         some "TypeError at lightbox.addEventListener") ∧
    scriptEval { fullEnv with nameEl := false }
      = ([Feature.cursorF, Feature.navGlassF, Feature.scrollTopF, Feature.highlightF,
          Feature.smoothScrollF, Feature.revealF, Feature.lightboxF],
         some "TypeError at nameInput.addEventListener") ∧
    scriptEval { fullEnv with emailEl := false }
      = ([Feature.cursorF, Feature.navGlassF, Feature.scrollTopF, Feature.highlightF,
          Feature.smoothScrollF, Feature.revealF, Feature.lightboxF],
         some "TypeError at emailInput.addEventListener") ∧
    scriptEval { fullEnv with messageEl := false }
      = ([Feature.cursorF, Feature.navGlassF, Feature.scrollTopF, Feature.highlightF,
          Feature.smoothScrollF, Feature.revealF, Feature.lightboxF],
         some "TypeError at messageInput.addEventListener") ∧
    scriptEval { fullEnv with contactFormEl := false }
      = ([Feature.cursorF, Feature.navGlassF, Feature.scrollTopF, Feature.highlightF,
          Feature.smoothScrollF, Feature.revealF, Feature.lightboxF],
         some "TypeError at contactForm.addEventListener") ∧
    downloadSetup false = [] ∧ downloadSetup true = [Feature.downloadF] := by
  refine ⟨?_, ?_, ?_, ?_, ?_, ?_, ?_, ?_, ?_, ?_, ?_, ?_⟩ <;> decide

/-- C3: with a trimmed name of length 1, submitting surfaces the name error
(the last error element of the name field parent is the name message) and
returns before the simulated submission step: the second component false
records that the loading state and the timed delay were never reached, and
the submit control label and disabled flag are unchanged. -/
theorem theorem_C3 (form : ContactForm)
    (h : (jsTrimList form.nameField.value).length = 1) :
    (submitPhase1 form).2 = false ∧
    (submitPhase1 form).1.submitText = form.submitText ∧
    (submitPhase1 form).1.submitDisabled = form.submitDisabled ∧
    (submitPhase1 form).1.nameField.errors.getLast?
      = some "Name must be at least 2 characters long" := by
  have hlt : (jsTrimList form.nameField.value).length < 2 := by omega
  simp [submitPhase1, validateName, hlt, showError, clearError, List.getLast?_concat]

/-- C3 witness at the concrete form with name "A". -/
theorem witness_C3 :
    (submitPhase1 cForm3).2 = false ∧
    (submitPhase1 cForm3).1.submitText = cForm3.submitText ∧
    (submitPhase1 cForm3).1.submitDisabled = cForm3.submitDisabled ∧
    (submitPhase1 cForm3).1.nameField.errors.getLast?
      = some "Name must be at least 2 characters long" :=
  theorem_C3 cForm3 (by decide)

/-- C4: with all three fields valid, submitting enters the loading state
(submit control disabled with the busy label), and after the simulated
delay resolves the success banner is the last banner on the form and the
three field values are cleared by the reset. -/
theorem theorem_C4 (form : ContactForm)
    (hn : 2 ≤ (jsTrimList form.nameField.value).length)
    (he : emailRegexTest (jsTrimList form.emailField.value) = true)
    (hm : 10 ≤ (jsTrimList form.messageField.value).length) :
    (submitPhase1 form).2 = true ∧
    (submitPhase1 form).1.submitDisabled = true ∧
    (submitPhase1 form).1.submitText = "Sending..." ∧
    (submitDelayComplete form.submitText (submitPhase1 form).1).banners.getLast?
      = some (FormBanner.mk "#4caf50"
          "Thank you for your message! We will get back to you soon.") ∧
    (submitDelayComplete form.submitText (submitPhase1 form).1).nameField.value = "" ∧
    (submitDelayComplete form.submitText (submitPhase1 form).1).emailField.value = "" ∧
    (submitDelayComplete form.submitText (submitPhase1 form).1).messageField.value = "" := by
  have h1 : ¬ ((jsTrimList form.nameField.value).length < 2) := by omega
  have h3 : ¬ ((jsTrimList form.messageField.value).length < 10) := by omega
  simp [submitPhase1, validateName, validateEmail, validateMessage, h1, h3, he,
    submitDelayComplete, showFormMessage, formReset, clearError, List.getLast?_concat]

/-- C4 witness at the concrete valid form. -/
theorem witness_C4 :
    (submitPhase1 cForm4).2 = true ∧
    (submitPhase1 cForm4).1.submitDisabled = true ∧
    (submitPhase1 cForm4).1.submitText = "Sending..." ∧
    (submitDelayComplete cForm4.submitText (submitPhase1 cForm4).1).banners.getLast?
      = some (FormBanner.mk "#4caf50"
          "Thank you for your message! We will get back to you soon.") ∧
    (submitDelayComplete cForm4.submitText (submitPhase1 cForm4).1).nameField.value = "" ∧
    (submitDelayComplete cForm4.submitText (submitPhase1 cForm4).1).emailField.value = "" ∧
    (submitDelayComplete cForm4.submitText (submitPhase1 cForm4).1).messageField.value = "" :=
  theorem_C4 cForm4 (by decide) (by decide) (by decide)

theorem applyFieldOp_errors_le (input : FormField) (op : FieldOp)
    (h : input.errors.length ≤ 1) : (applyFieldOp input op).errors.length ≤ 1 := by
  cases op <;> simp [applyFieldOp, showError, clearError, List.length_tail] <;> omega

theorem applyFieldOps_errors_le (input : FormField) (ops : List FieldOp)
    (h : input.errors.length ≤ 1) : (applyFieldOps input ops).errors.length ≤ 1 := by
  induction ops generalizing input with
  | nil => simpa [applyFieldOps] using h
  | cons op rest ih =>
    simpa [applyFieldOps, List.foldl_cons] using ih _ (applyFieldOp_errors_le input op h)

/-- C8: starting from a field parent holding at most one error element,
every sequence of validation outcomes leaves at most one error element;
showing an error replaces any existing one (the resulting element list is
the old list without its head, plus the new message), and a successful
validation removes the error element and clears the error border. -/
theorem theorem_C8 (input : FormField) (ops : List FieldOp) (m : String)
    (h : input.errors.length ≤ 1) :
    (applyFieldOps input ops).errors.length ≤ 1 ∧
    (showError input m).errors = input.errors.tail ++ [m] ∧
    (clearError input).errors = input.errors.tail ∧
    (clearError input).borderColor = "" :=
  ⟨applyFieldOps_errors_le input ops h, by simp [showError, clearError],
   by simp [clearError], by simp [clearError]⟩

/-- C8 witness at a concrete field and outcome sequence. -/
theorem witness_C8 :
    (applyFieldOps (FormField.mk "" [] "") [FieldOp.fail "x", FieldOp.pass]).errors.length ≤ 1 ∧
    (showError (FormField.mk "" [] "") "y").errors = (FormField.mk "" [] "").errors.tail ++ ["y"] ∧
    (clearError (FormField.mk "" [] "")).errors = (FormField.mk "" [] "").errors.tail ∧
    (clearError (FormField.mk "" [] "")).borderColor = "" :=
  theorem_C8 (FormField.mk "" [] "") [FieldOp.fail "x", FieldOp.pass] "y" (by decide)

/-- C6 counterexample to the claim as stated, at a concrete input: from the
state in which the storage entry is unset (and the document attribute is
absent), two toggles do not return the attribute and the persisted value to
those original values: both end at light, so the storage entry has been
created where there was none. -/
theorem counterexample_C6 :
    (ThemeState.mk none none none).storedTheme = none ∧
    (ThemeState.mk none none none).dataTheme = none ∧
    (toggleTheme false (toggleTheme false (ThemeState.mk none none none))).storedTheme
      = some "light" ∧
    (toggleTheme false (toggleTheme false (ThemeState.mk none none none))).dataTheme
      = some "light" ∧
    toggleTheme false (toggleTheme false (ThemeState.mk none none none))
      ≠ ThemeState.mk none none none := by
  refine ⟨?_, ?_, ?_, ?_, ?_⟩ <;> decide

/-- C6 (amended): from any state whose persisted value is light or dark and
whose document attribute agrees with it (the shape initialization
establishes), two toggles return both the attribute and the persisted value
to their original values; from a state with the persisted value unset, two
toggles instead leave both at light. -/
theorem theorem_C6 (t : String) (hasIcon : Bool) (icon icon2 : Option String)
    (a : Option String) (h : t = "light" ∨ t = "dark") :
    ((toggleTheme hasIcon (toggleTheme hasIcon
        (ThemeState.mk (some t) (some t) icon))).dataTheme = some t ∧
     (toggleTheme hasIcon (toggleTheme hasIcon
        (ThemeState.mk (some t) (some t) icon))).storedTheme = some t) ∧
    ((toggleTheme hasIcon (toggleTheme hasIcon
        (ThemeState.mk a none icon2))).dataTheme = some "light" ∧
     (toggleTheme hasIcon (toggleTheme hasIcon
        (ThemeState.mk a none icon2))).storedTheme = some "light") := by
  rcases h with rfl | rfl <;> cases hasIcon <;>
    simp [toggleTheme, getTheme, setTheme]

/-- C6 witness at a concrete starting theme. -/
theorem witness_C6 :
    ((toggleTheme true (toggleTheme true
        (ThemeState.mk (some "dark") (some "dark") (some "x")))).dataTheme = some "dark" ∧
     (toggleTheme true (toggleTheme true
        (ThemeState.mk (some "dark") (some "dark") (some "x")))).storedTheme = some "dark") ∧
    ((toggleTheme true (toggleTheme true
        (ThemeState.mk none none none))).dataTheme = some "light" ∧
     (toggleTheme true (toggleTheme true
        (ThemeState.mk none none none))).storedTheme = some "light") :=
  theorem_C6 "dark" true (some "x") none none (Or.inr rfl)

/-- C9: after any theme operation (initialize, set, or toggle), from any
starting state, the document attribute and the stored value are equal and
present: every operation funnels through setTheme, which writes the same
theme to both. -/
theorem theorem_C9 (hasIcon : Bool) (op : ThemeOp) (st : ThemeState) :
    (applyThemeOp hasIcon op st).dataTheme = (applyThemeOp hasIcon op st).storedTheme ∧
    (applyThemeOp hasIcon op st).dataTheme ≠ none := by
  cases op <;> simp [applyThemeOp, initTheme, setTheme, toggleTheme]

/-- C10 counterexample to the claim as stated, at a concrete input: both
elements exist, the menu is closed but the body overflow is hidden (the
lightbox scroll lock); after two toggles the overflow is the empty string,
not its prior value. -/
theorem counterexample_C10 :
    toggleMobileMenu true (toggleMobileMenu true (MenuState.mk false false "false" "hidden"))
      = MenuState.mk false false "false" "" ∧
    toggleMobileMenu true (toggleMobileMenu true (MenuState.mk false false "false" "hidden"))
      ≠ MenuState.mk false false "false" "hidden" := by
  refine ⟨?_, ?_⟩ <;> decide

/-- C10 (amended): when both elements exist and the four fields are
mutually consistent (hamburger class equals menu class, aria-expanded and
body overflow reflect the open state, as in every state the menu feature
itself produces), applying the toggle twice restores the full state. -/
theorem theorem_C10 (st : MenuState) (h : menuConsistent st) :
    toggleMobileMenu true (toggleMobileMenu true st) = st := by
  obtain ⟨h1, h2, h3⟩ := h
  rcases st with ⟨nm, ha, ae, bo⟩
  simp only at h1 h2 h3
  cases nm <;> simp_all [toggleMobileMenu]

/-- C10 witness at the concrete open consistent state. -/
theorem witness_C10 :
    toggleMobileMenu true (toggleMobileMenu true (MenuState.mk true true "true" "hidden"))
      = MenuState.mk true true "true" "hidden" :=
  theorem_C10 (MenuState.mk true true "true" "hidden") ⟨rfl, rfl, rfl⟩

/-- C7: an image with no data-src attribute is never selected for
observation by the lazy-load registration pass, and the observer callback
leaves it entirely unchanged whatever the intersection flag says. -/
theorem theorem_C7 (img : LazyImg) (imgs : List LazyImg) (isInter : Bool)
    (h : img.dataSrc = none) :
    img ∉ lazyObserveTargets imgs ∧ imageObserverStep isInter img = img := by
  constructor
  · intro hmem
    have hp := (List.mem_filter.mp hmem).2
    rw [h] at hp
    simp at hp
  · cases isInter <;> simp [imageObserverStep, h]

/-- C7 witness at a concrete plain image among observed ones. -/
theorem witness_C7 :
    LazyImg.mk "x.png" none ∉ lazyObserveTargets
      [LazyImg.mk "x.png" none, LazyImg.mk "p.png" (some "q.png")] ∧
    imageObserverStep true (LazyImg.mk "x.png" none) = LazyImg.mk "x.png" none :=
  theorem_C7 (LazyImg.mk "x.png" none)
    [LazyImg.mk "x.png" none, LazyImg.mk "p.png" (some "q.png")] true (by decide)

theorem isEmailChar_not_ws {c : Char} (h : isEmailChar c = true) : jsWhitespace c = false := by
  simp only [isEmailChar, Bool.and_eq_true, Bool.not_eq_true'] at h
  exact h.1

theorem isEmailChar_ne_at {c : Char} (h : isEmailChar c = true) : c ≠ '@' := by
  simp only [isEmailChar, Bool.and_eq_true, Bool.not_eq_true'] at h
  simpa using h.2

theorem isEmailChar_of {c : Char} (hws : jsWhitespace c = false) (hne : c ≠ '@') :
    isEmailChar c = true := by
  simp [isEmailChar, hws, hne]

theorem takeWhile_eq_take_at {α : Type} (p : α → Bool) (l : List α) (i : Nat) (c : α)
    (h1 : (l.take i).all p = true) (h2 : l[i]? = some c) (h3 : p c = false) :
    l.takeWhile p = l.take i ∧ l.dropWhile p = l.drop i := by
  induction l generalizing i with
  | nil => simp at h2
  | cons x t ih =>
    cases i with
    | zero =>
      rw [List.getElem?_cons_zero, Option.some.injEq] at h2
      subst h2
      rw [List.takeWhile_cons, List.dropWhile_cons]
      simp [h3]
    | succ n =>
      rw [List.take_succ_cons, List.all_cons, Bool.and_eq_true] at h1
      rw [List.getElem?_cons_succ] at h2
      have hres := ih n h1.2 h2
      rw [List.takeWhile_cons, List.dropWhile_cons]
      simp [h1.1, hres.1, hres.2, List.take_succ_cons, List.drop_succ_cons]

theorem dropWhile_head_false {α : Type} (p : α → Bool) (l : List α) (d : α) (ds : List α)
    (h : l.dropWhile p = d :: ds) : p d = false := by
  induction l with
  | nil => simp at h
  | cons x t ih =>
    rw [List.dropWhile_cons] at h
    by_cases hx : p x = true
    · rw [if_pos hx] at h
      exact ih h
    · rw [if_neg hx] at h
      injection h with h1 h2
      subst h1
      simpa using hx

theorem drop_eq_cons_of_getElem? {α : Type} (l : List α) (i : Nat) (c : α)
    (h : l[i]? = some c) : l.drop i = c :: l.drop (i + 1) := by
  obtain ⟨hlt, hget⟩ := List.getElem?_eq_some.mp h
  rw [← List.getElem_cons_drop l i hlt, hget]

theorem emailRegexTest_imp_spec (l : List Char) (h : emailRegexTest l = true) :
    specEmailAccept l = true := by
  simp only [emailRegexTest, List.any_eq_true, List.mem_range, Bool.and_eq_true,
    decide_eq_true_eq] at h
  obtain ⟨i, hilen, j, hjlen0, ⟨⟨⟨⟨⟨⟨h0i, hAt⟩, hij⟩, hDot⟩, hjlen⟩, hA⟩, hB⟩, hC⟩ := h
  have e2 : l.drop i = '@' :: l.drop (i + 1) := drop_eq_cons_of_getElem? l i '@' hAt
  have e5 : l.drop j = '.' :: l.drop (j + 1) := drop_eq_cons_of_getElem? l j '.' hDot
  have e4 : (l.drop (i + 1)).drop (j - (i + 1)) = l.drop j := by
    rw [List.drop_drop]
    congr 1
    omega
  -- every character of l is an email character, the at-sign, or the dot
  have hmem : ∀ x ∈ l, isEmailChar x = true ∨ x = '@' ∨ x = '.' := by
    intro x hx
    rw [← List.take_append_drop i l] at hx
    rcases List.mem_append.mp hx with hx1 | hx2
    · exact Or.inl (List.all_eq_true.mp hA x hx1)
    · rw [e2] at hx2
      rcases List.mem_cons.mp hx2 with rfl | hx3
      · exact Or.inr (Or.inl rfl)
      · rw [← List.take_append_drop (j - (i + 1)) (l.drop (i + 1)), e4, e5] at hx3
        rcases List.mem_append.mp hx3 with hx4 | hx5
        · exact Or.inl (List.all_eq_true.mp hB x hx4)
        · rcases List.mem_cons.mp hx5 with rfl | hx6
          · exact Or.inr (Or.inr rfl)
          · exact Or.inl (List.all_eq_true.mp hC x hx6)
  have hnoWs : l.all (fun c => !jsWhitespace c) = true := by
    rw [List.all_eq_true]
    intro x hx
    rcases hmem x hx with he | rfl | rfl
    · simp [isEmailChar_not_ws he]
    · decide
    · decide
  have hcount : l.count '@' = 1 := by
    have hAc : (l.take i).count '@' = 0 := List.count_eq_zero.mpr fun hm =>
      (isEmailChar_ne_at (List.all_eq_true.mp hA '@' hm)) rfl
    have hBc : ((l.drop (i + 1)).take (j - (i + 1))).count '@' = 0 := List.count_eq_zero.mpr
      fun hm => (isEmailChar_ne_at (List.all_eq_true.mp hB '@' hm)) rfl
    have hCc : (l.drop (j + 1)).count '@' = 0 := List.count_eq_zero.mpr fun hm =>
      (isEmailChar_ne_at (List.all_eq_true.mp hC '@' hm)) rfl
    conv_lhs => rw [← List.take_append_drop i l, e2]
    conv_lhs => rw [← List.take_append_drop (j - (i + 1)) (l.drop (i + 1)), e4, e5]
    rw [List.count_append, List.count_cons, List.count_append, List.count_cons,
      hAc, hBc, hCc]
    simp
  have hAp : (l.take i).all (fun c => !(c == '@')) = true := by
    rw [List.all_eq_true] at hA ⊢
    intro x hx
    simpa using isEmailChar_ne_at (hA x hx)
  have htdw := takeWhile_eq_take_at (fun c => !(c == '@')) l i '@' hAp hAt (by simp)
  have hneBool : (l.takeWhile (fun c => !(c == '@'))).isEmpty = false := by
    rw [htdw.1, List.isEmpty_eq_false]
    intro hq
    have : (l.take i).length = 0 := by rw [hq]; rfl
    rw [List.length_take] at this
    omega
  have hdwTail : (l.dropWhile (fun c => !(c == '@'))).tail = l.drop (i + 1) := by
    rw [htdw.2, e2, List.tail_cons]
  have hdotFinal : hasInteriorDot (l.drop (i + 1)) = true := by
    simp only [hasInteriorDot, List.any_eq_true, List.mem_range, Bool.and_eq_true,
      decide_eq_true_eq]
    refine ⟨j - (i + 1), ?_, ⟨⟨?_, ?_⟩, ?_⟩⟩
    · rw [List.length_drop]
      omega
    · omega
    · rw [List.getElem?_drop]
      have harith : i + 1 + (j - (i + 1)) = j := by omega
      rw [harith]
      exact hDot
    · rw [List.length_drop]
      omega
  simp [specEmailAccept, hnoWs, hcount, hneBool, hdwTail, hdotFinal]

theorem spec_regex_core (bf ds : List Char)
    (hall : ∀ x ∈ bf ++ '@' :: ds, jsWhitespace x = false)
    (hbf : ∀ x ∈ bf, x ≠ '@')
    (hds : ∀ x ∈ ds, x ≠ '@')
    (hne : bf ≠ [])
    (k : Nat) (h0k : 0 < k) (hkdot : ds[k]? = some '.') (hk1 : k + 1 < ds.length) :
    emailRegexTest (bf ++ '@' :: ds) = true := by
  have hlen : (bf ++ '@' :: ds).length = bf.length + 1 + ds.length := by
    rw [List.length_append, List.length_cons]
    omega
  have h0i : 0 < bf.length := List.length_pos.mpr hne
  have hdrop : (bf ++ '@' :: ds).drop (bf.length + 1) = ds := by
    rw [show bf ++ '@' :: ds = (bf ++ ['@']) ++ ds by simp]
    rw [show bf.length + 1 = (bf ++ ['@']).length by simp]
    exact List.drop_left _ _
  have hiAt : (bf ++ '@' :: ds)[bf.length]? = some '@' := by
    rw [List.getElem?_append_right (le_refl _)]
    simp
  have hjdot : (bf ++ '@' :: ds)[bf.length + 1 + k]? = some '.' := by
    have hgd := List.getElem?_drop (bf ++ '@' :: ds) (bf.length + 1) k
    rw [hdrop] at hgd
    rw [← hgd]
    exact hkdot
  have hmemL : ∀ x ∈ bf, x ∈ bf ++ '@' :: ds := fun x hx => List.mem_append.mpr (Or.inl hx)
  have hmemR : ∀ x ∈ ds, x ∈ bf ++ '@' :: ds := fun x hx =>
    List.mem_append.mpr (Or.inr (List.mem_cons.mpr (Or.inr hx)))
  simp only [emailRegexTest, List.any_eq_true, List.mem_range, Bool.and_eq_true,
    decide_eq_true_eq]
  refine ⟨bf.length, by omega, bf.length + 1 + k, by omega,
    ⟨⟨⟨⟨⟨⟨h0i, hiAt⟩, by omega⟩, hjdot⟩, by omega⟩, ?_⟩, ?_⟩, ?_⟩
  · rw [List.take_left, List.all_eq_true]
    intro x hx
    exact isEmailChar_of (hall x (hmemL x hx)) (hbf x hx)
  · rw [List.all_eq_true]
    intro x hx
    rw [show bf.length + 1 + k - (bf.length + 1) = k by omega, hdrop] at hx
    have hxds := List.take_subset _ _ hx
    exact isEmailChar_of (hall x (hmemR x hxds)) (hds x hxds)
  · rw [List.all_eq_true]
    intro x hx
    have e2 := List.drop_drop (k + 1) (bf.length + 1) (bf ++ '@' :: ds)
    rw [hdrop] at e2
    rw [show bf.length + 1 + k + 1 = bf.length + 1 + (k + 1) by omega, ← e2] at hx
    have hxds := List.drop_subset _ _ hx
    exact isEmailChar_of (hall x (hmemR x hxds)) (hds x hxds)

theorem spec_imp_emailRegexTest (l : List Char) (h : specEmailAccept l = true) :
    emailRegexTest l = true := by
  simp only [specEmailAccept, Bool.and_eq_true, decide_eq_true_eq, Bool.not_eq_true',
    List.isEmpty_eq_false, List.all_eq_true] at h
  obtain ⟨⟨⟨hall, hcount⟩, hne⟩, hdot⟩ := h
  cases hrest : l.dropWhile (fun c => !(c == '@')) with
  | nil =>
    exfalso
    have hz : l.count '@' = 0 := by
      conv_lhs => rw [← List.takeWhile_append_dropWhile (fun c => !(c == '@')) l]
      rw [hrest, List.count_append]
      have hz2 : (l.takeWhile (fun c => !(c == '@'))).count '@' = 0 :=
        List.count_eq_zero.mpr (by
          intro hm
          have := List.mem_takeWhile_imp hm
          simp at this)
      simp [hz2]
    omega
  | cons d ds =>
    have hd : d = '@' := by
      have := dropWhile_head_false (fun c => !(c == '@')) l d ds hrest
      simpa using this
    subst hd
    have hl : l = l.takeWhile (fun c => !(c == '@')) ++ '@' :: ds := by
      conv_lhs => rw [← List.takeWhile_append_dropWhile (fun c => !(c == '@')) l, hrest]
    have hbc : (l.takeWhile (fun c => !(c == '@'))).count '@' = 0 :=
      List.count_eq_zero.mpr (by
        intro hm
        have := List.mem_takeWhile_imp hm
        simp at this)
    have hdsc : ds.count '@' = 0 := by
      have hsum : l.count '@' = (l.takeWhile (fun c => !(c == '@'))).count '@'
          + (ds.count '@' + 1) := by
        conv_lhs => rw [hl]
        rw [List.count_append, List.count_cons]
        simp
      omega
    rw [hrest, List.tail_cons] at hdot
    simp only [hasInteriorDot, List.any_eq_true, List.mem_range, Bool.and_eq_true,
      decide_eq_true_eq] at hdot
    obtain ⟨k, hklt, ⟨h0k, hkdot⟩, hk1⟩ := hdot
    have hall2 : ∀ x ∈ l.takeWhile (fun c => !(c == '@')) ++ '@' :: ds,
        jsWhitespace x = false := by
      rw [← hl]
      exact hall
    have hbf2 : ∀ x ∈ l.takeWhile (fun c => !(c == '@')), x ≠ '@' := by
      intro x hx
      have := List.mem_takeWhile_imp hx
      simpa using this
    have hds2 : ∀ x ∈ ds, x ≠ '@' := by
      intro x hx heq
      subst heq
      exact (List.count_eq_zero.mp hdsc) hx
    rw [hl]
    exact spec_regex_core (l.takeWhile (fun c => !(c == '@'))) ds hall2 hbf2 hds2 hne
      k h0k hkdot hk1

theorem emailRegexTest_eq_spec (l : List Char) : emailRegexTest l = specEmailAccept l := by
  cases hr : emailRegexTest l with
  | true => exact (emailRegexTest_imp_spec l hr).symm
  | false =>
    cases hs : specEmailAccept l with
    | true => rw [spec_imp_emailRegexTest l hs] at hr; cases hr
    | false => rfl

/-- C5: the email validator accepts its input exactly when the trimmed
value, as a character list, satisfies the claim-side description: no
whitespace, exactly one at-sign, a non-empty part before it, and a dot
with non-empty segments on both sides somewhere in the part after it. -/
theorem theorem_C5 (input : FormField) :
    (validateEmail input).2 = specEmailAccept (jsTrimList input.value) := by
  rw [← emailRegexTest_eq_spec]
  cases h : emailRegexTest (jsTrimList input.value) <;> simp [validateEmail, h]

end SCR
